import Mathlib

/-!
Verification of the maXquerade simulation core against its specification.

The TypeScript source is shallowly embedded over the rationals:
floating-point numbers become `ℚ`, three.js vectors become `Vec3`,
and the external collision-query service (three-mesh-bvh raycasts)
is passed in as an explicit oracle function, faithful to the treatment
in the spec of the collision service as a black box. Calls to `Math.sqrt` and
`Math.pow` (irrational on most inputs) are likewise supplied as oracle
parameters; every theorem that depends on their behaviour hypothesises
exactly the properties the real functions have on the inputs used.
-/

/-- A three.js `Vector3` with rational components. -/
structure Vec3 where
  x : ℚ
  y : ℚ
  z : ℚ
deriving DecidableEq, Repr

namespace Vec3

/-- Componentwise sum, as `Vector3.add`. -/
def add (v w : Vec3) : Vec3 := ⟨v.x + w.x, v.y + w.y, v.z + w.z⟩

/-- Componentwise difference, as `Vector3.subVectors`. -/
def sub (v w : Vec3) : Vec3 := ⟨v.x - w.x, v.y - w.y, v.z - w.z⟩

/-- As `Vector3.addScaledVector v w s`. -/
def addScaled (v w : Vec3) (s : ℚ) : Vec3 :=
  ⟨v.x + w.x * s, v.y + w.y * s, v.z + w.z * s⟩

/-- As `Vector3.multiplyScalar`. -/
def scale (s : ℚ) (v : Vec3) : Vec3 := ⟨v.x * s, v.y * s, v.z * s⟩

/-- As `Vector3.dot`. -/
def dot (v w : Vec3) : ℚ := v.x * w.x + v.y * w.y + v.z * w.z

/-- As `Vector3.lengthSq`. -/
def lengthSq (v : Vec3) : ℚ := v.x * v.x + v.y * v.y + v.z * v.z

/-- As `Vector3.distanceToSquared`. -/
def distSq (v w : Vec3) : ℚ :=
  (v.x - w.x) * (v.x - w.x) + (v.y - w.y) * (v.y - w.y) + (v.z - w.z) * (v.z - w.z)

/-- `Vector3.normalize` divides by the length unless it is zero; the square
root is supplied by the `sqrtQ` oracle standing in for `Math.sqrt`. -/
def normalizeVia (sqrtQ : ℚ → ℚ) (v : Vec3) : Vec3 :=
  let len := sqrtQ v.lengthSq
  if len = 0 then v else ⟨v.x / len, v.y / len, v.z / len⟩

end Vec3

/-! ## GameLoop.ts — the LevelSequencer state machine -/

namespace GameLoop

/-- The `GamePhase` union type of GameLoop.ts. -/
inductive GamePhase where
  | intro
  | playing
  | enemyDefeated
  | fadeOut
  | fadeIn
  | restarting
deriving DecidableEq, Repr

/-- The `FadeReason` union type (`null` is modelled by `Option`). -/
inductive FadeReason where
  | levelAdvance
  | playerDeath
deriving DecidableEq, Repr

/-- Callback invocations surfaced by the sequencer.  The class stores the
callbacks as nullable fields; the model emits one event per `cb?.()` site. -/
inductive GEvent where
  | enemyDefeatedEv
  | maskPickupEv
  | fadeCompleteEv
  | restartLevelEv
  | levelCompleteEv
deriving DecidableEq, Repr

/-- The mutable fields of class `GameLoop` that the sequencer logic reads or
writes.  `currentEnemies` is reduced to the list of per-enemy `alive` flags,
the only thing `update` inspects.  The static `levels` array only contributes
its length (3) to `startNextLevel`. -/
structure GameLoopState where
  currentLevel : ℕ
  phase : GamePhase
  phaseTimer : ℚ
  playerHasMoved : Bool
  lastPlayerPosition : Vec3
  enemiesAlive : List Bool
  enemyDefeated : Bool
  fadeAlpha : ℚ
  fadeSpeed : ℚ
  fadeReason : Option FadeReason
deriving DecidableEq, Repr

/-- Length of the hard-coded `levels` array. -/
def levelsLength : ℕ := 3

/-- Field initialisers of class `GameLoop`. -/
def initState : GameLoopState where
  currentLevel := 0
  phase := .intro
  phaseTimer := 0
  playerHasMoved := false
  lastPlayerPosition := ⟨0, 0, 0⟩
  enemiesAlive := []
  enemyDefeated := false
  fadeAlpha := 0
  fadeSpeed := 2/5
  fadeReason := none

/-- `GameLoop.update(dt, playerPosition)`.  The comparison
`distance > 0.1` of the source is translated to the equivalent squared
comparison `distSq > 1/100` to stay inside `ℚ`. -/
def update (s₀ : GameLoopState) (dt : ℚ) (playerPosition : Vec3) :
    GameLoopState × List GEvent :=
  let s := { s₀ with phaseTimer := s₀.phaseTimer + dt }
  match s.phase with
  | .intro =>
      if ¬s.playerHasMoved ∧ playerPosition.distSq s.lastPlayerPosition > 1/100 then
        ({ s with playerHasMoved := true, phase := .playing,
                  lastPlayerPosition := playerPosition }, [])
      else
        ({ s with lastPlayerPosition := playerPosition }, [])
  | .playing =>
      let allEnemiesDefeated := s.enemiesAlive.length > 0 && s.enemiesAlive.all (fun a => !a)
      if allEnemiesDefeated ∧ ¬s.enemyDefeated then
        ({ s with enemyDefeated := true, phase := .enemyDefeated, phaseTimer := 0 },
         [.enemyDefeatedEv])
      else (s, [])
  | .enemyDefeated => (s, [])
  | .fadeOut =>
      let fa := min (s.fadeAlpha + s.fadeSpeed * dt) 1
      let s := { s with fadeAlpha := fa }
      if fa ≥ 1 then ({ s with phase := .restarting, phaseTimer := 0 }, []) else (s, [])
  | .restarting =>
      let evs : List GEvent :=
        if s.phaseTimer < 1/10 then
          [if s.fadeReason = some .playerDeath then .restartLevelEv else .fadeCompleteEv]
        else []
      if s.phaseTimer > 3/2 then
        ({ s with phase := .fadeIn, phaseTimer := 0 }, evs)
      else (s, evs)
  | .fadeIn =>
      let fa := max (s.fadeAlpha - s.fadeSpeed * dt) 0
      let s := { s with fadeAlpha := fa }
      if fa ≤ 0 then
        ({ s with phase := .intro, playerHasMoved := false,
                  enemyDefeated := false, fadeReason := none }, [])
      else (s, [])

/-- `GameLoop.triggerMaskPickup()`. -/
def triggerMaskPickup (s : GameLoopState) : GameLoopState × List GEvent :=
  if s.phase = .playing ∨ s.phase = .enemyDefeated then
    ({ s with fadeReason := some .levelAdvance, phase := .fadeOut, phaseTimer := 0 },
     [.maskPickupEv])
  else (s, [])

/-- `GameLoop.triggerPlayerDeath()`. -/
def triggerPlayerDeath (s : GameLoopState) : GameLoopState :=
  if s.phase = .fadeOut ∨ s.phase = .fadeIn ∨ s.phase = .restarting then s
  else { s with fadeReason := some .playerDeath, phase := .fadeOut, phaseTimer := 0 }

/-- `GameLoop.startNextLevel()`. -/
def startNextLevel (s : GameLoopState) : GameLoopState × List GEvent :=
  let lvl := s.currentLevel + 1
  let lvl := if lvl ≥ levelsLength then 0 else lvl
  ({ s with currentLevel := lvl, phase := .fadeIn, phaseTimer := 0 }, [.levelCompleteEv])

/-- `GameLoop.reset()`. -/
def reset (s : GameLoopState) : GameLoopState :=
  { s with phase := .intro, phaseTimer := 0, playerHasMoved := false,
           enemyDefeated := false, enemiesAlive := [], fadeAlpha := 0,
           lastPlayerPosition := ⟨0, 0, 0⟩ }

/-- States reachable from construction through the public mutators.  `dt` is
required non-negative (frame deltas); the game code may also overwrite
`currentEnemies` directly when a level is loaded, covered by `setEnemies`. -/
inductive Reached : GameLoopState → Prop where
  | init : Reached initState
  | stepUpdate {s dt p} : Reached s → 0 ≤ dt → Reached (update s dt p).1
  | stepPickup {s} : Reached s → Reached (triggerMaskPickup s).1
  | stepDeath {s} : Reached s → Reached (triggerPlayerDeath s)
  | stepNextLevel {s} : Reached s → Reached (startNextLevel s).1
  | stepReset {s} : Reached s → Reached (reset s)
  | stepSetEnemies {s} (es : List Bool) : Reached s → Reached { s with enemiesAlive := es }

/-- The fade invariant carried through every reachable state. -/
def FadeInv (s : GameLoopState) : Prop :=
  0 ≤ s.fadeAlpha ∧ s.fadeAlpha ≤ 1 ∧ 0 ≤ s.fadeSpeed

end GameLoop

/-! ## TankAttack (BeamAttack) — bvh.ts second part -/

namespace TankAttack

/-- The fields of class `TankAttack` that drive `update` age/liveness and
`tryHitPlayer`.  Particle meshes, sprites and the camera are presentation
(out of scope); `actualDistance` is the value `calculateWallDistance`
computed at construction. -/
structure BeamState where
  alive : Bool
  ageSeconds : ℚ
  buildDuration : ℚ
  actualDistance : ℚ
  startPos : Vec3
  direction : Vec3
  hasDamagedPlayer : Bool
deriving DecidableEq, Repr

/-- `THREE.MathUtils.clamp(value, lo, hi)`. -/
def clampQ (value lo hi : ℚ) : ℚ := max lo (min hi value)

/-- The age/liveness effect of `TankAttack.update({dt})` (lines 107-114 of
the class); the remainder of `update` only moves particle meshes. -/
def updateAge (s : BeamState) (dt : ℚ) : BeamState :=
  if ¬s.alive then s
  else
    let s := { s with ageSeconds := s.ageSeconds + dt }
    if s.ageSeconds ≥ s.buildDuration then { s with alive := false } else s

/-- `TankAttack.tryHitPlayer(playerPos, playerRadius, playerPadding)`;
returns the reported hit together with the successor state. -/
def tryHitPlayer (s : BeamState) (playerPos : Vec3) (playerRadius playerPadding : ℚ) :
    Bool × BeamState :=
  if ¬s.alive ∨ s.hasDamagedPlayer then (false, s)
  else
    let denom := max s.buildDuration (1/1000000)
    let progress := clampQ (s.ageSeconds / denom) 0 1
    let currentLength := s.actualDistance * progress
    let tmp := playerPos.sub s.startPos
    let t := tmp.dot s.direction
    if t < 0 ∨ t > currentLength then (false, s)
    else
      let tmp2 := s.startPos.addScaled s.direction t
      let hitR := max 0 (playerRadius + playerPadding)
      if tmp2.distSq playerPos ≤ hitR * hitR then
        (true, { s with hasDamagedPlayer := true })
      else (false, s)

/-- One interaction with a live beam during its lifetime: either a frame
tick of `update` or a `tryHitPlayer` probe from the game loop. -/
inductive BeamOp where
  | tick (dt : ℚ)
  | tryHit (playerPos : Vec3) (playerRadius playerPadding : ℚ)

/-- Run a sequence of interactions, counting how many `tryHitPlayer` calls
returned `true` (i.e. how many damage events were emitted). -/
def runBeam : BeamState → List BeamOp → BeamState × ℕ
  | s, [] => (s, 0)
  | s, BeamOp.tick dt :: ops => runBeam (updateAge s dt) ops
  | s, BeamOp.tryHit p r pad :: ops =>
      let hit := tryHitPlayer s p r pad
      let rest := runBeam hit.2 ops
      (rest.1, (if hit.1 then 1 else 0) + rest.2)

/-- `TankAttack.calculateWallDistance()`: with collision meshes registered it
casts one ray (far = 100) from `startPos` along `direction`; `rayHit` is the
distance of the first intersection that raycast reports, if any.  With no
collision meshes, no ray is cast and the start-to-target distance is tripled.
`originalDistance` is `startPos.distanceTo(targetPos)`. -/
def calculateWallDistance (meshesPresent : Bool) (rayHit : Option ℚ)
    (originalDistance : ℚ) : ℚ :=
  if meshesPresent then
    match rayHit with
    | some d => d
    | none => 50
  else originalDistance * 3

/-- Number of collision ray casts `calculateWallDistance` performs. -/
def constructorRayCasts (meshesPresent : Bool) : ℕ :=
  if meshesPresent then 1 else 0

end TankAttack

/-! ## Enemy (part_007) — kill path -/

namespace Enemy

/-- The `EnemyState` union type of the Enemy class. -/
inductive EnemyFSM where
  | idle
  | pursuing
  | dying
  | dead
deriving DecidableEq, Repr

/-- The fields of class `Enemy` written by `kill()`. -/
structure EnemyKillView where
  alive : Bool
  velocity : Vec3
  pursuitAnimTime : ℚ
  state : EnemyFSM
  deathAnimTime : ℚ
  hideOnNextUpdate : Bool
  spawnExplosionEvent : Bool
  lastDrawnFrame : ℤ
deriving DecidableEq, Repr

/-- `Enemy.kill()`: check-then-clear the alive flag, then start the death
sequence. -/
def kill (e : EnemyKillView) : EnemyKillView :=
  if ¬e.alive then e
  else
    { e with alive := false, velocity := ⟨0, 0, 0⟩, pursuitAnimTime := 0,
             state := .dying, deathAnimTime := 0, hideOnNextUpdate := false,
             spawnExplosionEvent := false, lastDrawnFrame := -1 }

/-- The `isHittable` getter guarding the projectile-vs-enemy hit loop of
Game.ts (`if (!e.isHittable) continue`). -/
def isHittable (e : EnemyKillView) : Bool := e.alive

end Enemy

/-! ## Wall collision resolution — Game.ts resolveWallCollision and the
identically-structured Enemy.resolveWallCollision (part_007) -/

namespace Walls

/-- The eight horizontal probe directions (`wallDirs`), in source order. -/
def wallDirs : List Vec3 :=
  [⟨1, 0, 0⟩, ⟨-1, 0, 0⟩, ⟨0, 0, 1⟩, ⟨0, 0, -1⟩,
   ⟨707/1000, 0, 707/1000⟩, ⟨-707/1000, 0, 707/1000⟩,
   ⟨707/1000, 0, -707/1000⟩, ⟨-707/1000, 0, -707/1000⟩]

/-- One wall probe: a raycast (far = radius + 0.05, absorbed into the
`probe` oracle contract) from the body point at `probeHeight`, then the
push-out and into-wall velocity cancellation.  `bodyHeight` is
`currentHeight` for the player and `enemyHeight` for an enemy; `radius` is
the corresponding capsule radius. -/
def probeStep (radius bodyHeight : ℚ) (probe : Vec3 → Vec3 → Option ℚ)
    (probeHeight : ℚ) (pv : Vec3 × Vec3) (dir : Vec3) : Vec3 × Vec3 :=
  let origin : Vec3 := ⟨pv.1.x, pv.1.y - bodyHeight + probeHeight, pv.1.z⟩
  match probe origin dir with
  | none => pv
  | some hitDistance =>
      let penetration := radius - hitDistance + 1/100
      if penetration > 0 then
        let pos := { pv.1 with x := pv.1.x - dir.x * penetration,
                               z := pv.1.z - dir.z * penetration }
        let velDot := pv.2.x * dir.x + pv.2.z * dir.z
        let vel :=
          if velDot > 0 then
            { pv.2 with x := pv.2.x - dir.x * velDot, z := pv.2.z - dir.z * velDot }
          else pv.2
        (pos, vel)
      else pv

/-- `resolveWallCollision(pos, vel)`: three probe heights (ankle, mid,
near-head), eight directions each, applied in source order.  Covers both the
player variant (Game.ts, radius = playerRadius, bodyHeight = currentHeight)
and the enemy variant (part_007, radius = enemyRadius, bodyHeight =
enemyHeight), whose bodies are identical up to those constants. -/
def resolveWallCollision (radius bodyHeight : ℚ) (meshesPresent : Bool)
    (probe : Vec3 → Vec3 → Option ℚ) (pos vel : Vec3) : Vec3 × Vec3 :=
  if ¬meshesPresent then (pos, vel)
  else
    let heights : List ℚ := [1/5, bodyHeight * (1/2), bodyHeight - 1/10]
    heights.foldl
      (fun pv h => wallDirs.foldl (probeStep radius bodyHeight probe h) pv)
      (pos, vel)

end Walls

/-! ## Player motion — the embedded player block of Game.ts animate() -/

namespace Player

/-- Tuning constant `playerHeight = 1.7`. -/
def playerHeight : ℚ := 17/10

/-- Tuning constant `playerRadius = 0.35`. -/
def playerRadius : ℚ := 7/20

/-- Tuning constant `slideHeight = 0.9`. -/
def slideHeight : ℚ := 9/10

/-- Tuning constant `walkSpeed = 12`. -/
def walkSpeed : ℚ := 12

/-- Tuning constant `sprintSpeed = 20`. -/
def sprintSpeed : ℚ := 20

/-- Tuning constant `slideSpeed = 28`. -/
def slideSpeed : ℚ := 28

/-- Tuning constant `slideMinSpeed = 8`. -/
def slideMinSpeed : ℚ := 8

/-- Tuning constant `slideDuration = 0.8`. -/
def slideDuration : ℚ := 4/5

/-- Tuning constant `slideFriction = 4`. -/
def slideFriction : ℚ := 4

/-- Tuning constant `airSpeed = 4`. -/
def airSpeed : ℚ := 4

/-- Tuning constant `groundAccel = 80`. -/
def groundAccel : ℚ := 80

/-- Tuning constant `airAccel = 35`. -/
def airAccel : ℚ := 35

/-- Tuning constant `friction = 12`. -/
def frictionCoeff : ℚ := 12

/-- Tuning constant `gravity = 32`. -/
def gravity : ℚ := 32

/-- Tuning constant `jumpVelocity = 11`. -/
def jumpVelocity : ℚ := 11

/-- Tuning constant `slideJumpBoost = 1.4`. -/
def slideJumpBoost : ℚ := 7/5

/-- Tuning constant `coyoteTime = 0.15`. -/
def coyoteTime : ℚ := 3/20

/-- Result record of `checkGround`. -/
structure GroundResult where
  grounded : Bool
  groundY : ℚ
deriving DecidableEq, Repr

/-- `checkGround(pos)` of Game.ts: downward raycast against the map
(`groundProbe pos` is the distance of the first hit the BVH raycast reports
within far = playerHeight + 0.5, if any), falling through to the flat y = 0
fallback floor test.  The early `return` on a close enough mesh hit is the
first match arm. -/
def checkGround (meshesPresent : Bool) (groundProbe : Vec3 → Option ℚ)
    (currentHeight : ℚ) (pos : Vec3) : GroundResult :=
  let meshResult : Option GroundResult :=
    if meshesPresent then
      match groundProbe pos with
      | some dist =>
          if dist ≤ currentHeight + 1/10 then some ⟨true, pos.y - dist⟩ else none
      | none => none
    else none
  match meshResult with
  | some r => r
  | none => if pos.y ≤ currentHeight + 1/10 then ⟨true, 0⟩ else ⟨false, 0⟩

/-- The acceleration step (Game.ts lines 644-651): quake-style, add speed in
the wish direction up to `maxSpeed`, bounded per tick by
`accel * dt * maxSpeed`, skipped while sliding or with no wish direction. -/
def accelStep (sliding : Bool) (wishDir vel : Vec3) (maxSpeed accel dt : ℚ) : Vec3 :=
  if wishDir.lengthSq > 0 ∧ ¬sliding then
    let currentSpeed := vel.x * wishDir.x + vel.z * wishDir.z
    let addSpeed := max 0 (maxSpeed - currentSpeed)
    let accelAmount := min (accel * dt * maxSpeed) addSpeed
    { vel with x := vel.x + wishDir.x * accelAmount,
               z := vel.z + wishDir.z * accelAmount }
  else vel

/-- The per-tick player physics state (module-level mutable variables of
Game.ts). -/
structure PlayerState where
  pos : Vec3
  vel : Vec3
  grounded : Bool
  sliding : Bool
  slideTimer : ℚ
  currentHeight : ℚ
  timeSinceGrounded : ℚ
  jumpBuffered : ℚ
deriving DecidableEq, Repr

/-- Input snapshot for one tick.  `forward` and `right` are the
camera-derived horizontal direction vectors computed just above the physics
block (their y components are zeroed by construction in the source). -/
structure PlayerInput where
  moveForward : Bool
  moveBackward : Bool
  moveLeft : Bool
  moveRight : Bool
  wantJump : Bool
  sprinting : Bool
  wantCrouch : Bool
  forward : Vec3
  right : Vec3
deriving Repr

/-- The external collaborators of one tick: mesh availability, the two BVH
raycast oracles, `Math.sqrt`, and the value of `Math.pow(0.001, dt)` used by
the height lerp. -/
structure PlayerEnv where
  meshesPresent : Bool
  groundProbe : Vec3 → Option ℚ
  wallProbe : Vec3 → Vec3 → Option ℚ
  sqrtQ : ℚ → ℚ
  powFade : ℚ

/-- Output of the final ground clamp and fallback floor (Game.ts lines
666-682). -/
structure FinalClampOut where
  pos : Vec3
  vel : Vec3
  grounded : Bool
  finalGround : GroundResult
  fallbackFired : Bool
deriving Repr

/-- Final ground clamp (re-probe after wall resolution, snap up if below
resting height) followed by the unconditional fallback floor at
y = currentHeight. -/
def finalClampStep (meshesPresent : Bool) (groundProbe : Vec3 → Option ℚ)
    (currentHeight : ℚ) (pos vel : Vec3) (grounded : Bool) : FinalClampOut :=
  let finalGround := checkGround meshesPresent groundProbe currentHeight pos
  let clamped : Vec3 × Vec3 × Bool :=
    if finalGround.grounded then
      let targetY := finalGround.groundY + currentHeight
      if pos.y < targetY then
        (⟨pos.x, targetY, pos.z⟩, (if vel.y < 0 then { vel with y := 0 } else vel), true)
      else (pos, vel, grounded)
    else (pos, vel, grounded)
  let fallbackFired := clamped.1.y < currentHeight
  if fallbackFired then
    { pos := ⟨clamped.1.x, currentHeight, clamped.1.z⟩,
      vel := (if clamped.2.1.y < 0 then { clamped.2.1 with y := 0 } else clamped.2.1),
      grounded := true, finalGround := finalGround, fallbackFired := fallbackFired }
  else
    { pos := clamped.1, vel := clamped.2.1, grounded := clamped.2.2,
      finalGround := finalGround, fallbackFired := fallbackFired }

/-- Intermediate state after everything up to and including wall resolution
(Game.ts lines 531-664), just before the final ground clamp. -/
structure PrePhysicsOut where
  pos : Vec3
  vel : Vec3
  grounded : Bool
  sliding : Bool
  slideTimer : ℚ
  currentHeight : ℚ
  timeSinceGrounded : ℚ
  jumpBuffered : ℚ
deriving Repr

/-- Game.ts lines 531-664 in source order: initial ground check and snap,
jump-buffer countdown, slide start/continue, height lerp, coyote-time jump,
wish-direction build, speed/accel table, friction, acceleration, gravity,
integration, wall resolution. -/
def playerPrePhysics (env : PlayerEnv) (inp : PlayerInput) (st : PlayerState)
    (dt : ℚ) : PrePhysicsOut :=
  let gc := checkGround env.meshesPresent env.groundProbe st.currentHeight st.pos
  let grounded := gc.grounded
  let pvt : Vec3 × Vec3 × ℚ :=
    if grounded then
      let targetY := gc.groundY + st.currentHeight
      if st.pos.y < targetY then
        (⟨st.pos.x, targetY, st.pos.z⟩,
         (if st.vel.y < 0 then { st.vel with y := 0 } else st.vel), 0)
      else (st.pos, st.vel, 0)
    else (st.pos, st.vel, st.timeSinceGrounded + dt)
  let pos := pvt.1
  let vel := pvt.2.1
  let timeSinceGrounded := pvt.2.2
  let jumpBuffered := if st.jumpBuffered > 0 then st.jumpBuffered - dt else st.jumpBuffered
  let horizontalSpeed := env.sqrtQ (vel.x * vel.x + vel.z * vel.z)
  let slideStart : Bool × ℚ × Vec3 :=
    if inp.wantCrouch ∧ inp.sprinting ∧ grounded = true ∧ st.sliding = false ∧
        horizontalSpeed > walkSpeed then
      let vel :=
        if horizontalSpeed > 0 then
          let speedMultiplier := slideSpeed / horizontalSpeed
          { vel with x := vel.x * speedMultiplier, z := vel.z * speedMultiplier }
        else vel
      (true, slideDuration, vel)
    else (st.sliding, st.slideTimer, vel)
  let sliding := slideStart.1
  let slideTimer := slideStart.2.1
  let vel := slideStart.2.2
  let slideCont : Bool × ℚ :=
    if sliding then
      let slideTimer := slideTimer - dt
      if ¬inp.wantCrouch ∨ slideTimer ≤ 0 ∨ horizontalSpeed < slideMinSpeed ∨
          grounded = false then
        (false, 0)
      else (sliding, slideTimer)
    else (sliding, slideTimer)
  let sliding := slideCont.1
  let slideTimer := slideCont.2
  let targetHeight := if sliding then slideHeight else playerHeight
  let currentHeight := st.currentHeight + (targetHeight - st.currentHeight) * (1 - env.powFade)
  let canJump := grounded = true ∨ timeSinceGrounded < coyoteTime
  let jumped : Vec3 × Bool × Bool × ℚ × ℚ :=
    if (inp.wantJump ∨ jumpBuffered > 0) ∧ canJump ∧ vel.y ≤ 1/10 then
      let vel :=
        if sliding then
          ⟨vel.x * slideJumpBoost, jumpVelocity * slideJumpBoost, vel.z * slideJumpBoost⟩
        else { vel with y := jumpVelocity }
      (vel, false, false, coyoteTime, 0)
    else (vel, grounded, sliding, timeSinceGrounded, jumpBuffered)
  let vel := jumped.1
  let grounded := jumped.2.1
  let sliding := jumped.2.2.1
  let timeSinceGrounded := jumped.2.2.2.1
  let jumpBuffered := jumped.2.2.2.2
  let wishDir : Vec3 := ⟨0, 0, 0⟩
  let wishDir := if inp.moveForward then wishDir.add inp.forward else wishDir
  let wishDir := if inp.moveBackward then wishDir.sub inp.forward else wishDir
  let wishDir := if inp.moveRight then wishDir.add inp.right else wishDir
  let wishDir := if inp.moveLeft then wishDir.sub inp.right else wishDir
  let wishDir := wishDir.normalizeVia env.sqrtQ
  let speedAccel : ℚ × ℚ :=
    if grounded = false then (airSpeed, airAccel)
    else if sliding then (slideSpeed, groundAccel * (1/5))
    else ((if inp.sprinting then sprintSpeed else walkSpeed), groundAccel)
  let maxSpeed := speedAccel.1
  let accel := speedAccel.2
  let vel :=
    if grounded = true ∧ ¬sliding then
      let speed := env.sqrtQ (vel.x * vel.x + vel.z * vel.z)
      if speed > 1/10 then
        let drop := speed * frictionCoeff * dt
        let scaleF := max (speed - drop) 0 / speed
        { vel with x := vel.x * scaleF, z := vel.z * scaleF }
      else { vel with x := 0, z := 0 }
    else if sliding then
      let speed := env.sqrtQ (vel.x * vel.x + vel.z * vel.z)
      if speed > 1/10 then
        let drop := speed * slideFriction * dt
        let scaleF := max (speed - drop) 0 / speed
        { vel with x := vel.x * scaleF, z := vel.z * scaleF }
      else vel
    else vel
  let vel := accelStep sliding wishDir vel maxSpeed accel dt
  let vel := if grounded = false then { vel with y := vel.y - gravity * dt } else vel
  let pos : Vec3 := ⟨pos.x + vel.x * dt, pos.y + vel.y * dt, pos.z + vel.z * dt⟩
  let walled := Walls.resolveWallCollision playerRadius currentHeight
    env.meshesPresent env.wallProbe pos vel
  { pos := walled.1, vel := walled.2, grounded := grounded, sliding := sliding,
    slideTimer := slideTimer, currentHeight := currentHeight,
    timeSinceGrounded := timeSinceGrounded, jumpBuffered := jumpBuffered }

/-- Output of one whole player physics tick, with the final ground probe
result and fallback-floor flag exposed. -/
structure PlayerOut where
  state : PlayerState
  finalGround : GroundResult
  fallbackFired : Bool
deriving Repr

/-- One whole player physics tick of Game.ts animate() (lines 531-682):
`playerPrePhysics` followed by the final ground clamp and fallback floor. -/
def playerTick (env : PlayerEnv) (inp : PlayerInput) (st : PlayerState)
    (dt : ℚ) : PlayerOut :=
  let pre := playerPrePhysics env inp st dt
  let fo := finalClampStep env.meshesPresent env.groundProbe pre.currentHeight
    pre.pos pre.vel pre.grounded
  { state := { pos := fo.pos, vel := fo.vel, grounded := fo.grounded,
               sliding := pre.sliding, slideTimer := pre.slideTimer,
               currentHeight := pre.currentHeight,
               timeSinceGrounded := pre.timeSinceGrounded,
               jumpBuffered := pre.jumpBuffered },
    finalGround := fo.finalGround, fallbackFired := fo.fallbackFired }

/-- The effective ground height a grounded end-of-tick position rests on:
the fallback floor at 0 when it fired, otherwise the final probe result. -/
def effectiveGroundY (o : PlayerOut) : ℚ :=
  if o.fallbackFired then 0 else o.finalGround.groundY

/-- A concrete environment for exercising the tick: map not yet loaded (no
collision meshes, both raycast oracles report nothing), and a square-root
oracle that is only ever consulted at 0 in the scenarios below (where it
must return 0, as `Math.sqrt` does).  `powFade` stands for
`Math.pow(0.001, dt)`; its value is irrelevant when the capsule height is
already at its target, since the lerp is then the identity. -/
def hoverEnv : PlayerEnv where
  meshesPresent := false
  groundProbe := fun _ => none
  wallProbe := fun _ _ => none
  sqrtQ := fun _ => 0
  powFade := 9/10

/-- No keys held; camera facing down negative z. -/
def hoverInput : PlayerInput where
  moveForward := false
  moveBackward := false
  moveLeft := false
  moveRight := false
  wantJump := false
  sprinting := false
  wantCrouch := false
  forward := ⟨0, 0, -1⟩
  right := ⟨1, 0, 0⟩

/-- A player at rest, grounded, hovering 0.05 above the fallback-floor
resting height playerHeight: the downward probe (slack 0.1) still reports
grounded there. -/
def hoverState : PlayerState where
  pos := ⟨0, 17/10 + 1/20, 0⟩
  vel := ⟨0, 0, 0⟩
  grounded := true
  sliding := false
  slideTimer := 0
  currentHeight := 17/10
  timeSinceGrounded := 0
  jumpBuffered := 0

end Player

/-! ## Projectile (part_010) — sweep/bounce loop -/

namespace Projectile

/-- The fields of class `Projectile` involved in the bounce branch of the
sweep loop.  `bounceRestitution`, `maxBounces` and `collisionEpsilon` come
from the per-instance options record. -/
structure ProjState where
  pos : Vec3
  vel : Vec3
  alive : Bool
  bounceCount : ℕ
  bounceRestitution : ℚ
  maxBounces : ℕ
  collisionEpsilon : ℚ
deriving DecidableEq, Repr

/-- The per-tick velocity pre-step (lines 161-162): gravity, then
exponential drag.  `expFactor` stands for `Math.exp(-drag * dt)`; it is
never consulted when `drag = 0`. -/
def integrateVelocity (gravityOpt dragOpt dt expFactor : ℚ) (vel : Vec3) : Vec3 :=
  let vel := if gravityOpt ≠ 0 then { vel with y := vel.y - gravityOpt * dt } else vel
  if dragOpt > 0 then vel.scale expFactor else vel

/-- One collision hit inside the sweep loop: the normalized sweep direction,
the travel distance `max 0 (hit.distance - collisionRadius)` up to the
contact point, and the world-space unit surface normal when
`tryGetWorldNormal` succeeds (`none` when the hit face has no usable
normal). -/
structure BounceEvent where
  rayDir : Vec3
  travelDist : ℚ
  normal : Option Vec3
deriving DecidableEq, Repr

/-- Boolean check that a bounce event carries a unit surface normal
(`tryGetWorldNormal` normalizes the transformed face normal). -/
def normalUnit (e : BounceEvent) : Bool :=
  match e.normal with
  | none => false
  | some n => n.lengthSq == 1

/-- The hit-processing tail of one sweep iteration (lines 199-226 of
`Projectile.update`): advance to the contact point; terminate if no bounce
is configured or no surface normal is available; otherwise nudge off the
surface, reflect the velocity about the normal, scale by the restitution,
and spend one bounce of the budget.  Dead projectiles are untouched
(`update` returns immediately when `!this.alive`). -/
def applyBounce (s : ProjState) (e : BounceEvent) : ProjState :=
  if ¬s.alive then s
  else
    let pos := s.pos.addScaled e.rayDir e.travelDist
    if ¬(s.bounceRestitution > 0) then { s with pos := pos, alive := false }
    else
      match e.normal with
      | none => { s with pos := pos, alive := false }
      | some n =>
          let pos := pos.addScaled n s.collisionEpsilon
          let vn := s.vel.dot n
          let vel := if vn < 0 then s.vel.addScaled n (-2 * vn) else s.vel
          let vel := vel.scale s.bounceRestitution
          let bounceCount := s.bounceCount + 1
          let alive := ¬(s.maxBounces > 0 ∧ bounceCount > s.maxBounces)
          { s with pos := pos, vel := vel, bounceCount := bounceCount, alive := alive }

/-- Fold a sequence of collision hits through the bounce branch. -/
def applyBounces (s : ProjState) (es : List BounceEvent) : ProjState :=
  es.foldl applyBounce s

/-- Squared speed of a projectile. -/
def speedSq (s : ProjState) : ℚ := s.vel.lengthSq

/-- A concrete projectile configured like the thrown knife (restitution
below one, positive bounce budget): speed 5, restitution 1/2, budget 2. -/
def sampleState : ProjState where
  pos := ⟨0, 0, 0⟩
  vel := ⟨3, -4, 0⟩
  alive := true
  bounceCount := 0
  bounceRestitution := 1/2
  maxBounces := 2
  collisionEpsilon := 1/500

/-- Three successive floor hits (unit normal pointing up). -/
def sampleEvents : List BounceEvent :=
  [⟨⟨0, -1, 0⟩, 1, some ⟨0, 1, 0⟩⟩,
   ⟨⟨0, -1, 0⟩, 1, some ⟨0, 1, 0⟩⟩,
   ⟨⟨0, -1, 0⟩, 1, some ⟨0, 1, 0⟩⟩]

end Projectile

/-! ## Theorems -/

theorem gameLoop_fadeInv_update {s : GameLoop.GameLoopState} {dt : ℚ} (p : Vec3)
    (h : GameLoop.FadeInv s) (hdt : 0 ≤ dt) :
    GameLoop.FadeInv (GameLoop.update s dt p).1 := by
  obtain ⟨h0, h1, hs⟩ := h
  have hsd : 0 ≤ s.fadeSpeed * dt := mul_nonneg hs hdt
  unfold GameLoop.update GameLoop.FadeInv
  dsimp only
  cases hp : s.phase <;> dsimp only
  case intro => split <;> exact ⟨h0, h1, hs⟩
  case playing => split <;> exact ⟨h0, h1, hs⟩
  case enemyDefeated => exact ⟨h0, h1, hs⟩
  case fadeOut =>
    split <;>
      exact ⟨le_min (by linarith) (by norm_num), min_le_right _ _, hs⟩
  case fadeIn =>
    split <;>
      exact ⟨le_max_right _ _, max_le (by linarith) (by norm_num), hs⟩
  case restarting => split <;> exact ⟨h0, h1, hs⟩

theorem gameLoop_fadeInv_reached {s : GameLoop.GameLoopState}
    (h : GameLoop.Reached s) : GameLoop.FadeInv s := by
  induction h with
  | init =>
      exact ⟨le_refl 0, by norm_num [GameLoop.initState], by norm_num [GameLoop.initState]⟩
  | stepUpdate hr hdt ih => exact gameLoop_fadeInv_update _ ih hdt
  | stepPickup hr ih =>
      unfold GameLoop.triggerMaskPickup
      split <;> exact ih
  | stepDeath hr ih =>
      unfold GameLoop.triggerPlayerDeath
      split <;> exact ih
  | stepNextLevel hr ih => exact ih
  | stepReset hr ih => exact ⟨le_refl 0, by norm_num [GameLoop.reset], ih.2.2⟩
  | stepSetEnemies es hr ih => exact ih

/-- C1: the claim says that during one stay in the restarting phase exactly
one callback fires, on the first tick only, regardless of the per-tick dt
values.  The code guards the call with `phaseTimer < 0.1`, so at an ordinary
frame rate the callback fires again on every subsequent tick until the phase
timer passes 0.1: entering restarting (phaseTimer = 0, fade-reason
level-advance) and ticking twice with dt = 1/30 emits the advance callback
`onFadeComplete` on both ticks, contradicting the claim and the comment
in the source itself ("Call the completion callback ONCE"). -/
theorem C1_restarting_callback_fires_twice :
    (GameLoop.update
      { GameLoop.initState with phase := .restarting,
                                fadeAlpha := 1,
                                fadeReason := some .levelAdvance }
      (1/30) ⟨0, 0, 0⟩).2 = [.fadeCompleteEv] ∧
    (GameLoop.update
      (GameLoop.update
        { GameLoop.initState with phase := .restarting,
                                  fadeAlpha := 1,
                                  fadeReason := some .levelAdvance }
        (1/30) ⟨0, 0, 0⟩).1
      (1/30) ⟨0, 0, 0⟩).2 = [.fadeCompleteEv] := by
  constructor <;> norm_num [GameLoop.update, GameLoop.initState] <;>
    exact fun h => absurd h (by decide)

/-- C2: for every reachable GameLoop state and every single update call with
non-negative dt (dt = 10 included), fadeAlpha stays within [0, 1]. -/
theorem C2_fadeAlpha_bounded {s : GameLoop.GameLoopState} {dt : ℚ} (p : Vec3)
    (hs : GameLoop.Reached s) (hdt : 0 ≤ dt) :
    0 ≤ (GameLoop.update s dt p).1.fadeAlpha ∧
      (GameLoop.update s dt p).1.fadeAlpha ≤ 1 :=
  ⟨(gameLoop_fadeInv_update p (gameLoop_fadeInv_reached hs) hdt).1,
   (gameLoop_fadeInv_update p (gameLoop_fadeInv_reached hs) hdt).2.1⟩

theorem C2_fadeAlpha_bounded_witness :
    GameLoop.Reached GameLoop.initState ∧ (0:ℚ) ≤ 10 ∧
      (0 ≤ (GameLoop.update GameLoop.initState 10 ⟨0, 0, 0⟩).1.fadeAlpha ∧
       (GameLoop.update GameLoop.initState 10 ⟨0, 0, 0⟩).1.fadeAlpha ≤ 1) :=
  ⟨GameLoop.Reached.init, by norm_num,
   C2_fadeAlpha_bounded ⟨0, 0, 0⟩ GameLoop.Reached.init (by norm_num)⟩

/-- C9: triggerMaskPickup called in any phase other than playing or
enemy-defeated leaves the whole sequencer state unchanged and invokes no
callback. -/
theorem C9_mask_pickup_guard {s : GameLoop.GameLoopState}
    (h1 : s.phase ≠ GameLoop.GamePhase.playing)
    (h2 : s.phase ≠ GameLoop.GamePhase.enemyDefeated) :
    GameLoop.triggerMaskPickup s = (s, []) := by
  unfold GameLoop.triggerMaskPickup
  rw [if_neg]
  rintro (h | h)
  · exact h1 h
  · exact h2 h

theorem C9_mask_pickup_guard_witness :
    GameLoop.initState.phase ≠ GameLoop.GamePhase.playing ∧
      GameLoop.initState.phase ≠ GameLoop.GamePhase.enemyDefeated ∧
      GameLoop.triggerMaskPickup GameLoop.initState = (GameLoop.initState, []) :=
  ⟨by decide, by decide, C9_mask_pickup_guard (by decide) (by decide)⟩

theorem beam_updateAge_flag (s : TankAttack.BeamState) (dt : ℚ) :
    (TankAttack.updateAge s dt).hasDamagedPlayer = s.hasDamagedPlayer := by
  unfold TankAttack.updateAge
  split
  · rfl
  · dsimp only
    split <;> rfl

theorem beam_tryHit_damaged_noop (s : TankAttack.BeamState) (p : Vec3)
    (r pad : ℚ) (hd : s.hasDamagedPlayer = true) :
    TankAttack.tryHitPlayer s p r pad = (false, s) := by
  unfold TankAttack.tryHitPlayer
  rw [if_pos (Or.inr hd)]

theorem beam_tryHit_cases (s : TankAttack.BeamState) (p : Vec3) (r pad : ℚ) :
    TankAttack.tryHitPlayer s p r pad = (false, s) ∨
      TankAttack.tryHitPlayer s p r pad =
        (true, { s with hasDamagedPlayer := true }) := by
  unfold TankAttack.tryHitPlayer
  dsimp only
  split_ifs <;> first
    | exact Or.inl rfl
    | exact Or.inr rfl

theorem beam_damage_count (ops : List TankAttack.BeamOp) :
    ∀ s : TankAttack.BeamState,
      (TankAttack.runBeam s ops).2 ≤ if s.hasDamagedPlayer then 0 else 1 := by
  induction ops with
  | nil =>
      intro s
      simp only [TankAttack.runBeam]
      split <;> omega
  | cons op ops ih =>
      intro s
      cases op with
      | tick dt =>
          simp only [TankAttack.runBeam]
          have h := ih (TankAttack.updateAge s dt)
          rwa [beam_updateAge_flag] at h
      | tryHit p r pad =>
          simp only [TankAttack.runBeam]
          rcases beam_tryHit_cases s p r pad with hc | hc
          · rw [hc]
            simpa using ih s
          · rw [hc]
            have hd : s.hasDamagedPlayer = false := by
              by_contra hdc
              simp only [Bool.not_eq_false] at hdc
              rw [beam_tryHit_damaged_noop s p r pad hdc] at hc
              simp at hc
            have h := ih ({ s with hasDamagedPlayer := true } : TankAttack.BeamState)
            simp only [if_pos] at h
            rw [hd]
            simp only [Bool.false_eq_true, if_false, if_true]
            omega

/-- C5: across any sequence of frame ticks and tryHitPlayer probes over the
lifetime of a beam, at most one probe reports damage (none once the player has
already been damaged); a freshly constructed beam has
hasDamagedPlayer = false, so at most one damage event is ever emitted. -/
theorem C5_beam_single_damage (s : TankAttack.BeamState)
    (ops : List TankAttack.BeamOp) :
    (TankAttack.runBeam s ops).2 ≤ if s.hasDamagedPlayer then 0 else 1 :=
  beam_damage_count ops s

/-- C6 counterexample: with collision meshes registered but no surface hit
within the 100-unit cap, the effective beam length is the constant 50 — for
a nominal start-to-target distance of 100 this is not any (generous, ≥ 1×)
multiple of the nominal distance, contrary to the claim. -/
theorem C6_fallback_constant_counterexample :
    TankAttack.calculateWallDistance true none 100 = 50 ∧
      ¬(100 ≤ TankAttack.calculateWallDistance true none 100) := by
  constructor
  · rfl
  · norm_num [TankAttack.calculateWallDistance]

/-- C6 amended: when collision meshes are present, one ray cast is
performed; on a hit the effective length is the hit distance, and on a miss
it is the constant fallback 50 (independent of the nominal start-to-target
distance).  With no collision meshes, no ray is cast and the effective
length is 3 times the nominal start-to-target distance. -/
theorem C6_wall_distance_cases (d originalDistance : ℚ) (h : Option ℚ) :
    TankAttack.calculateWallDistance true (some d) originalDistance = d ∧
    TankAttack.calculateWallDistance true none originalDistance = 50 ∧
    TankAttack.calculateWallDistance false h originalDistance = originalDistance * 3 ∧
    TankAttack.constructorRayCasts true = 1 ∧
    TankAttack.constructorRayCasts false = 0 :=
  ⟨rfl, rfl, rfl, rfl, rfl⟩

/-- C8: the kill path is guarded by the alive flag being checked then
cleared: a kill of a live enemy starts the death sequence (state dying,
alive cleared), and a second kill call is the identity on the resulting
state, so two kill calls in one tick start exactly one death sequence. -/
theorem C8_kill_idempotent (e : Enemy.EnemyKillView) :
    Enemy.kill (Enemy.kill e) = Enemy.kill e ∧
    (Enemy.kill e).alive = false ∧
    (Enemy.kill e).state = (if e.alive then Enemy.EnemyFSM.dying else e.state) := by
  by_cases h : e.alive = true
  · simp [Enemy.kill, h]
  · simp only [Bool.not_eq_true] at h
    simp [Enemy.kill, h]

theorem walls_probeStep_y (radius bodyHeight : ℚ) (probe : Vec3 → Vec3 → Option ℚ)
    (h : ℚ) (pv : Vec3 × Vec3) (dir : Vec3) :
    (Walls.probeStep radius bodyHeight probe h pv dir).1.y = pv.1.y ∧
      (Walls.probeStep radius bodyHeight probe h pv dir).2.y = pv.2.y := by
  unfold Walls.probeStep
  dsimp only
  cases hp : probe ⟨pv.1.x, pv.1.y - bodyHeight + h, pv.1.z⟩ dir with
  | none => exact ⟨rfl, rfl⟩
  | some d =>
      dsimp only
      split_ifs <;> exact ⟨rfl, rfl⟩

theorem walls_foldl_dirs_y (radius bodyHeight : ℚ) (probe : Vec3 → Vec3 → Option ℚ)
    (h : ℚ) (l : List Vec3) :
    ∀ pv : Vec3 × Vec3,
      ((l.foldl (Walls.probeStep radius bodyHeight probe h) pv).1.y = pv.1.y ∧
       (l.foldl (Walls.probeStep radius bodyHeight probe h) pv).2.y = pv.2.y) := by
  induction l with
  | nil => exact fun pv => ⟨rfl, rfl⟩
  | cons d l ih =>
      intro pv
      simp only [List.foldl_cons]
      have h1 := walls_probeStep_y radius bodyHeight probe h pv d
      have h2 := ih (Walls.probeStep radius bodyHeight probe h pv d)
      exact ⟨h2.1.trans h1.1, h2.2.trans h1.2⟩

/-- C10: wall-collision resolution (both the player variant of Game.ts and
the enemy variant of the Enemy class) never changes the y components of the
position or the velocity: push-out and into-wall velocity cancellation act
on x and z only. -/
theorem C10_wall_resolution_preserves_y (radius bodyHeight : ℚ)
    (meshesPresent : Bool) (probe : Vec3 → Vec3 → Option ℚ) (pos vel : Vec3) :
    (Walls.resolveWallCollision radius bodyHeight meshesPresent probe pos vel).1.y = pos.y ∧
      (Walls.resolveWallCollision radius bodyHeight meshesPresent probe pos vel).2.y = vel.y := by
  unfold Walls.resolveWallCollision
  split
  · exact ⟨rfl, rfl⟩
  · simp only [List.foldl_cons, List.foldl_nil]
    have g1 := walls_foldl_dirs_y radius bodyHeight probe (1/5) Walls.wallDirs (pos, vel)
    have g2 := walls_foldl_dirs_y radius bodyHeight probe (bodyHeight * (1/2)) Walls.wallDirs
      (Walls.wallDirs.foldl (Walls.probeStep radius bodyHeight probe (1/5)) (pos, vel))
    have g3 := walls_foldl_dirs_y radius bodyHeight probe (bodyHeight - 1/10) Walls.wallDirs
      (Walls.wallDirs.foldl (Walls.probeStep radius bodyHeight probe (bodyHeight * (1/2)))
        (Walls.wallDirs.foldl (Walls.probeStep radius bodyHeight probe (1/5)) (pos, vel)))
    exact ⟨g3.1.trans (g2.1.trans g1.1), g3.2.trans (g2.2.trans g1.2)⟩

/-- C7: on any tick, the squared magnitude of the velocity change produced
by the acceleration step is at most `(accel * dt * maxSpeed)^2` — hence the
magnitude itself is at most `accel * dt * maxSpeed` — whenever the
normalized wish direction has horizontal length at most one (which
`normalize` guarantees for any non-zero wish direction). -/
theorem C7_accel_cap (sliding : Bool) (wishDir vel : Vec3) (maxSpeed accel dt : ℚ)
    (haccel : 0 ≤ accel) (hdt : 0 ≤ dt) (hms : 0 ≤ maxSpeed)
    (hw : wishDir.x ^ 2 + wishDir.z ^ 2 ≤ 1) :
    ((Player.accelStep sliding wishDir vel maxSpeed accel dt).x - vel.x) ^ 2 +
      ((Player.accelStep sliding wishDir vel maxSpeed accel dt).y - vel.y) ^ 2 +
      ((Player.accelStep sliding wishDir vel maxSpeed accel dt).z - vel.z) ^ 2 ≤
      (accel * dt * maxSpeed) ^ 2 := by
  unfold Player.accelStep
  split
  · dsimp only
    set b := accel * dt * maxSpeed with hb
    have hb0 : 0 ≤ b := mul_nonneg (mul_nonneg haccel hdt) hms
    set a := min b (max 0 (maxSpeed - (vel.x * wishDir.x + vel.z * wishDir.z))) with ha
    have ha0 : 0 ≤ a := le_min hb0 (le_max_left 0 _)
    have hab : a ≤ b := min_le_left _ _
    have key : (vel.x + wishDir.x * a - vel.x) ^ 2 + (vel.y - vel.y) ^ 2 +
        (vel.z + wishDir.z * a - vel.z) ^ 2 = (wishDir.x ^ 2 + wishDir.z ^ 2) * a ^ 2 := by
      ring
    rw [key]
    have h1 : (wishDir.x ^ 2 + wishDir.z ^ 2) * a ^ 2 ≤ 1 * a ^ 2 :=
      mul_le_mul_of_nonneg_right hw (sq_nonneg a)
    have h2 : a ^ 2 ≤ b ^ 2 := pow_le_pow_left₀ ha0 hab 2
    calc (wishDir.x ^ 2 + wishDir.z ^ 2) * a ^ 2 ≤ 1 * a ^ 2 := h1
      _ = a ^ 2 := one_mul _
      _ ≤ b ^ 2 := h2
  · have key : (vel.x - vel.x) ^ 2 + (vel.y - vel.y) ^ 2 + (vel.z - vel.z) ^ 2 = 0 := by ring
    rw [key]
    positivity

theorem C7_accel_cap_witness :
    (0:ℚ) ≤ 80 ∧ (0:ℚ) ≤ 1/60 ∧ (0:ℚ) ≤ 12 ∧
      ((⟨1, 0, 0⟩ : Vec3).x ^ 2 + (⟨1, 0, 0⟩ : Vec3).z ^ 2 ≤ 1) ∧
      ((Player.accelStep false ⟨1, 0, 0⟩ ⟨0, 0, 0⟩ 12 80 (1/60)).x - (⟨0, 0, 0⟩ : Vec3).x) ^ 2 +
        ((Player.accelStep false ⟨1, 0, 0⟩ ⟨0, 0, 0⟩ 12 80 (1/60)).y - (⟨0, 0, 0⟩ : Vec3).y) ^ 2 +
        ((Player.accelStep false ⟨1, 0, 0⟩ ⟨0, 0, 0⟩ 12 80 (1/60)).z - (⟨0, 0, 0⟩ : Vec3).z) ^ 2 ≤
        (80 * (1/60) * 12) ^ 2 :=
  ⟨by norm_num, by norm_num, by norm_num, by norm_num,
   C7_accel_cap false ⟨1, 0, 0⟩ ⟨0, 0, 0⟩ 12 80 (1/60)
     (by norm_num) (by norm_num) (by norm_num) (by norm_num)⟩

theorem player_checkGround_upper (m : Bool) (gp : Vec3 → Option ℚ) (ch : ℚ)
    (pos : Vec3) (h : (Player.checkGround m gp ch pos).grounded = true) :
    pos.y ≤ (Player.checkGround m gp ch pos).groundY + ch + 1/10 := by
  unfold Player.checkGround at h ⊢
  dsimp only at h ⊢
  by_cases hm : m = true
  · rw [if_pos hm] at h ⊢
    cases hp : gp pos <;>
      (rw [hp] at h; dsimp only at h ⊢; split_ifs at h ⊢ <;> dsimp only <;> linarith)
  · simp only [Bool.not_eq_true] at hm
    rw [hm] at h ⊢
    simp only [Bool.false_eq_true, if_false] at h ⊢
    split_ifs at h ⊢
    dsimp only
    linarith

theorem player_finalClamp_bounds (m : Bool) (gp : Vec3 → Option ℚ) (ch : ℚ)
    (pos vel : Vec3) (grounded : Bool)
    (hcond : (Player.finalClampStep m gp ch pos vel grounded).finalGround.grounded = true ∨
      (Player.finalClampStep m gp ch pos vel grounded).fallbackFired = true) :
    (if (Player.finalClampStep m gp ch pos vel grounded).fallbackFired then 0
     else (Player.finalClampStep m gp ch pos vel grounded).finalGround.groundY) + ch ≤
      (Player.finalClampStep m gp ch pos vel grounded).pos.y ∧
    (Player.finalClampStep m gp ch pos vel grounded).pos.y ≤
      (if (Player.finalClampStep m gp ch pos vel grounded).fallbackFired then 0
       else (Player.finalClampStep m gp ch pos vel grounded).finalGround.groundY) + ch + 1/10 := by
  have hup := player_checkGround_upper m gp ch pos
  unfold Player.finalClampStep at hcond ⊢
  dsimp only at hcond ⊢
  by_cases hg : (Player.checkGround m gp ch pos).grounded = true
  · rw [if_pos hg] at hcond ⊢
    by_cases hsnap : pos.y < (Player.checkGround m gp ch pos).groundY + ch
    · rw [if_pos hsnap] at hcond ⊢
      dsimp only at hcond ⊢
      by_cases hfb : (Player.checkGround m gp ch pos).groundY + ch < ch
      · simp [hfb] at hcond ⊢
      · simp [hfb] at hcond ⊢
    · rw [if_neg hsnap] at hcond ⊢
      dsimp only at hcond ⊢
      by_cases hfb : pos.y < ch
      · simp [hfb] at hcond ⊢
      · have hup2 := hup hg
        simp [hfb] at hcond ⊢
        refine ⟨?_, ?_⟩
        all_goals linarith
  · rw [if_neg hg] at hcond ⊢
    dsimp only at hcond ⊢
    by_cases hfb : pos.y < ch
    · simp [hfb] at hcond ⊢
    · simp [hfb] at hcond ⊢
      exact absurd hcond hg

/-- C3 amended: after the final ground clamp and fallback floor of a tick, if
the final ground probe (run at the post-wall-resolution position) reports
grounded — or the fallback floor engaged — the end-of-tick position sits in
the window [groundY + currentHeight, groundY + currentHeight + 0.1] above
the effective ground.  The clamp is one-sided: it only ever snaps the
player UP to groundY + currentHeight, so exact equality holds only when the
clamp actually snapped; a position up to the 0.1 probe slack above rests
there untouched (see the counterexample). -/
theorem C3_ground_contact_window (env : Player.PlayerEnv) (inp : Player.PlayerInput)
    (st : Player.PlayerState) (dt : ℚ)
    (hcond : (Player.playerTick env inp st dt).finalGround.grounded = true ∨
      (Player.playerTick env inp st dt).fallbackFired = true) :
    Player.effectiveGroundY (Player.playerTick env inp st dt) +
        (Player.playerTick env inp st dt).state.currentHeight ≤
      (Player.playerTick env inp st dt).state.pos.y ∧
    (Player.playerTick env inp st dt).state.pos.y ≤
      Player.effectiveGroundY (Player.playerTick env inp st dt) +
        (Player.playerTick env inp st dt).state.currentHeight + 1/10 := by
  unfold Player.effectiveGroundY
  unfold Player.playerTick at hcond ⊢
  dsimp only at hcond ⊢
  exact player_finalClamp_bounds env.meshesPresent env.groundProbe
    (Player.playerPrePhysics env inp st dt).currentHeight
    (Player.playerPrePhysics env inp st dt).pos
    (Player.playerPrePhysics env inp st dt).vel
    (Player.playerPrePhysics env inp st dt).grounded hcond

/-- C3 counterexample: with the map not yet loaded, a player at rest with
grounded = true hovering 0.05 above the resting height (within the 0.1
probe slack, e.g. left there by the crouch height shrink or spawn
placement) stays put for the whole tick: grounded remains true afterwards,
the downward probe reports groundY = 0, yet position.y differs from
groundY + currentHeight by exactly 1/20 = 0.05 — far beyond floating-point
tolerance, because the ground clamp only ever snaps upward. -/
theorem C3_ground_clamp_equality_fails :
    (Player.playerTick Player.hoverEnv Player.hoverInput Player.hoverState
        (1/60)).state.grounded = true ∧
    (Player.playerTick Player.hoverEnv Player.hoverInput Player.hoverState
        (1/60)).finalGround.grounded = true ∧
    (Player.playerTick Player.hoverEnv Player.hoverInput Player.hoverState
        (1/60)).finalGround.groundY = 0 ∧
    (Player.playerTick Player.hoverEnv Player.hoverInput Player.hoverState
        (1/60)).state.currentHeight = 17/10 ∧
    (Player.playerTick Player.hoverEnv Player.hoverInput Player.hoverState
        (1/60)).state.pos.y -
      ((Player.playerTick Player.hoverEnv Player.hoverInput Player.hoverState
          (1/60)).finalGround.groundY +
        (Player.playerTick Player.hoverEnv Player.hoverInput Player.hoverState
            (1/60)).state.currentHeight) = 1/20 := by
  norm_num [Player.playerTick, Player.playerPrePhysics, Player.finalClampStep,
    Player.checkGround, Player.accelStep, Player.hoverEnv, Player.hoverInput,
    Player.hoverState, Player.playerHeight, Player.playerRadius, Player.slideHeight,
    Player.walkSpeed, Player.sprintSpeed, Player.slideSpeed, Player.slideMinSpeed,
    Player.slideDuration, Player.slideFriction, Player.airSpeed, Player.groundAccel,
    Player.airAccel, Player.frictionCoeff, Player.gravity, Player.jumpVelocity,
    Player.slideJumpBoost, Player.coyoteTime, Walls.resolveWallCollision,
    Walls.probeStep, Walls.wallDirs, Vec3.normalizeVia, Vec3.lengthSq, Vec3.add,
    Vec3.sub, Vec3.addScaled, Vec3.scale, Vec3.dot]

theorem C3_ground_contact_window_witness :
    ((Player.playerTick Player.hoverEnv Player.hoverInput Player.hoverState
        (1/60)).finalGround.grounded = true ∨
      (Player.playerTick Player.hoverEnv Player.hoverInput Player.hoverState
          (1/60)).fallbackFired = true) ∧
    (Player.effectiveGroundY
        (Player.playerTick Player.hoverEnv Player.hoverInput Player.hoverState (1/60)) +
        (Player.playerTick Player.hoverEnv Player.hoverInput Player.hoverState
            (1/60)).state.currentHeight ≤
      (Player.playerTick Player.hoverEnv Player.hoverInput Player.hoverState
          (1/60)).state.pos.y ∧
    (Player.playerTick Player.hoverEnv Player.hoverInput Player.hoverState
        (1/60)).state.pos.y ≤
      Player.effectiveGroundY
          (Player.playerTick Player.hoverEnv Player.hoverInput Player.hoverState (1/60)) +
        (Player.playerTick Player.hoverEnv Player.hoverInput Player.hoverState
            (1/60)).state.currentHeight + 1/10) :=
  ⟨Or.inl (by
    norm_num [Player.playerTick, Player.playerPrePhysics, Player.finalClampStep,
      Player.checkGround, Player.accelStep, Player.hoverEnv, Player.hoverInput,
      Player.hoverState, Player.playerHeight, Player.playerRadius, Player.slideHeight,
      Player.walkSpeed, Player.sprintSpeed, Player.slideSpeed, Player.slideMinSpeed,
      Player.slideDuration, Player.slideFriction, Player.airSpeed, Player.groundAccel,
      Player.airAccel, Player.frictionCoeff, Player.gravity, Player.jumpVelocity,
      Player.slideJumpBoost, Player.coyoteTime, Walls.resolveWallCollision,
      Walls.probeStep, Walls.wallDirs, Vec3.normalizeVia, Vec3.lengthSq, Vec3.add,
      Vec3.sub, Vec3.addScaled, Vec3.scale, Vec3.dot]),
   C3_ground_contact_window Player.hoverEnv Player.hoverInput Player.hoverState (1/60)
     (Or.inl (by
       norm_num [Player.playerTick, Player.playerPrePhysics, Player.finalClampStep,
         Player.checkGround, Player.accelStep, Player.hoverEnv, Player.hoverInput,
         Player.hoverState, Player.playerHeight, Player.playerRadius, Player.slideHeight,
         Player.walkSpeed, Player.sprintSpeed, Player.slideSpeed, Player.slideMinSpeed,
         Player.slideDuration, Player.slideFriction, Player.airSpeed, Player.groundAccel,
         Player.airAccel, Player.frictionCoeff, Player.gravity, Player.jumpVelocity,
         Player.slideJumpBoost, Player.coyoteTime, Walls.resolveWallCollision,
         Walls.probeStep, Walls.wallDirs, Vec3.normalizeVia, Vec3.lengthSq, Vec3.add,
         Vec3.sub, Vec3.addScaled, Vec3.scale, Vec3.dot]))⟩

theorem vec_scale_lengthSq (r : ℚ) (v : Vec3) :
    (Vec3.scale r v).lengthSq = r ^ 2 * v.lengthSq := by
  unfold Vec3.scale Vec3.lengthSq
  ring

theorem vec_reflect_lengthSq (v n : Vec3) (hu : n.lengthSq = 1) :
    (v.addScaled n (-2 * v.dot n)).lengthSq = v.lengthSq := by
  unfold Vec3.lengthSq at hu
  unfold Vec3.addScaled Vec3.dot Vec3.lengthSq
  linear_combination (4 * (v.x * n.x + v.y * n.y + v.z * n.z) ^ 2) * hu

theorem proj_integrateVelocity_zero (dt expFactor : ℚ) (vel : Vec3) :
    Projectile.integrateVelocity 0 0 dt expFactor vel = vel := by
  unfold Projectile.integrateVelocity
  norm_num

theorem proj_applyBounce_spec (s : Projectile.ProjState) (e : Projectile.BounceEvent)
    (n : Vec3) (ha : s.alive = true) (hr : s.bounceRestitution > 0)
    (hn : e.normal = some n) (hu : n.lengthSq = 1) :
    Projectile.speedSq (Projectile.applyBounce s e) =
      s.bounceRestitution ^ 2 * Projectile.speedSq s ∧
    (Projectile.applyBounce s e).bounceCount = s.bounceCount + 1 ∧
    (Projectile.applyBounce s e).bounceRestitution = s.bounceRestitution ∧
    (Projectile.applyBounce s e).maxBounces = s.maxBounces ∧
    ((Projectile.applyBounce s e).alive = true ↔
      ¬(s.maxBounces > 0 ∧ s.bounceCount + 1 > s.maxBounces)) := by
  unfold Projectile.applyBounce
  rw [if_neg (by simp [ha])]
  rw [if_neg (by simpa using hr)]
  rw [hn]
  dsimp only
  refine ⟨?_, rfl, rfl, rfl, by simp only [decide_eq_true_eq]⟩
  unfold Projectile.speedSq
  by_cases hv : s.vel.dot n < 0
  · rw [if_pos hv, vec_scale_lengthSq, vec_reflect_lengthSq _ _ hu]
  · rw [if_neg hv, vec_scale_lengthSq]

theorem proj_bounces_general (es : List Projectile.BounceEvent) :
    ∀ s : Projectile.ProjState, s.alive = true → s.maxBounces > 0 →
      s.bounceRestitution > 0 →
      (∀ e ∈ es, Projectile.normalUnit e = true) →
      s.bounceCount ≤ s.maxBounces →
      s.bounceCount + es.length ≤ s.maxBounces + 1 →
      Projectile.speedSq (Projectile.applyBounces s es) =
        s.bounceRestitution ^ (2 * es.length) * Projectile.speedSq s ∧
      ((Projectile.applyBounces s es).alive = true ↔
        s.bounceCount + es.length ≤ s.maxBounces) := by
  induction es with
  | nil =>
      intro s ha hmb hr hns hbc hlen
      simp only [Projectile.applyBounces, List.foldl_nil, List.length_nil,
        Nat.mul_zero, pow_zero, one_mul, Nat.add_zero]
      refine ⟨by first | rfl | trivial, iff_of_true ha (by omega)⟩
  | cons e es ih =>
      intro s ha hmb hr hns hbc hlen
      simp only [List.length_cons] at hlen
      obtain ⟨n, hn, hu⟩ : ∃ n, e.normal = some n ∧ n.lengthSq = 1 := by
        have he := hns e (List.mem_cons_self e es)
        unfold Projectile.normalUnit at he
        cases hne : e.normal with
        | none => rw [hne] at he; exact absurd he (by simp)
        | some n =>
            rw [hne] at he
            exact ⟨n, rfl, by simpa using he⟩
      have spec := proj_applyBounce_spec s e n ha hr hn hu
      simp only [Projectile.applyBounces, List.foldl_cons, List.length_cons]
      by_cases hfit : s.bounceCount + 1 ≤ s.maxBounces
      · have halive1 : (Projectile.applyBounce s e).alive = true := by
          rw [spec.2.2.2.2]
          omega
        have hih := ih (Projectile.applyBounce s e) halive1
          (by rw [spec.2.2.2.1]; exact hmb)
          (by rw [spec.2.2.1]; exact hr)
          (fun x hx => hns x (List.mem_cons_of_mem e hx))
          (by rw [spec.2.1, spec.2.2.2.1]; exact hfit)
          (by rw [spec.2.1, spec.2.2.2.1]; omega)
        constructor
        · rw [show (es.foldl Projectile.applyBounce (Projectile.applyBounce s e)) =
            Projectile.applyBounces (Projectile.applyBounce s e) es from rfl]
          rw [hih.1, spec.2.2.1, spec.1]
          have hexp : 2 * (es.length + 1) = 2 * es.length + 2 := by ring
          rw [hexp, pow_add]
          ring
        · rw [show (es.foldl Projectile.applyBounce (Projectile.applyBounce s e)) =
            Projectile.applyBounces (Projectile.applyBounce s e) es from rfl]
          rw [hih.2, spec.2.1, spec.2.2.2.1]
          omega
      · have hlen0 : es.length = 0 := by omega
        have hes : es = [] := List.eq_nil_of_length_eq_zero hlen0
        subst hes
        simp only [List.foldl_nil, List.length_nil]
        have halive1 : (Projectile.applyBounce s e).alive = true ↔ False := by
          rw [spec.2.2.2.2]
          constructor
          · intro hcon
            exact hcon ⟨hmb, by omega⟩
          · intro hcon
            exact hcon.elim
        constructor
        · rw [spec.1]
        · rw [halive1]
          constructor
          · intro hcon
            exact hcon.elim
          · intro hcon
            omega

/-- C4: for a projectile whose per-tick velocity pre-step is inert (gravity
0 and drag 0, see proj_integrateVelocity_zero), the bounce branch of the
sweep loop fully determines speed and liveness: starting from a live
projectile with bounce budget maxBounces > 0, restitution r > 0 and bounce
count 0, after a sequence of N surface hits with unit normals
(N ≤ maxBounces + 1, beyond which the instance is already dead and inert)
the squared speed equals r^(2N) times the initial squared speed — i.e. the
speed magnitude equals the initial speed times r^N — and the projectile is
still alive exactly when its bounce count N has not exceeded maxBounces. -/
theorem C4_bounce_energy_decay (s : Projectile.ProjState)
    (es : List Projectile.BounceEvent) (ha : s.alive = true)
    (hb0 : s.bounceCount = 0) (hmb : s.maxBounces > 0)
    (hr : s.bounceRestitution > 0)
    (hns : ∀ e ∈ es, Projectile.normalUnit e = true)
    (hlen : es.length ≤ s.maxBounces + 1) :
    Projectile.speedSq (Projectile.applyBounces s es) =
      s.bounceRestitution ^ (2 * es.length) * Projectile.speedSq s ∧
    ((Projectile.applyBounces s es).alive = true ↔ es.length ≤ s.maxBounces) := by
  have h := proj_bounces_general es s ha hmb hr hns (by omega) (by omega)
  rw [hb0] at h
  simpa using h

theorem C4_bounce_energy_decay_witness :
    Projectile.sampleState.alive = true ∧
    Projectile.sampleState.bounceCount = 0 ∧
    Projectile.sampleState.maxBounces > 0 ∧
    Projectile.sampleState.bounceRestitution > 0 ∧
    (∀ e ∈ Projectile.sampleEvents, Projectile.normalUnit e = true) ∧
    Projectile.sampleEvents.length ≤ Projectile.sampleState.maxBounces + 1 ∧
    (Projectile.speedSq
        (Projectile.applyBounces Projectile.sampleState Projectile.sampleEvents) =
      Projectile.sampleState.bounceRestitution ^ (2 * Projectile.sampleEvents.length) *
        Projectile.speedSq Projectile.sampleState ∧
     ((Projectile.applyBounces Projectile.sampleState Projectile.sampleEvents).alive = true ↔
       Projectile.sampleEvents.length ≤ Projectile.sampleState.maxBounces)) :=
  ⟨rfl, rfl, by norm_num [Projectile.sampleState], by norm_num [Projectile.sampleState],
   by norm_num [Projectile.sampleEvents, Projectile.normalUnit, Vec3.lengthSq, beq_iff_eq],
   by norm_num [Projectile.sampleEvents, Projectile.sampleState],
   C4_bounce_energy_decay Projectile.sampleState Projectile.sampleEvents rfl rfl
     (by norm_num [Projectile.sampleState]) (by norm_num [Projectile.sampleState])
     (by norm_num [Projectile.sampleEvents, Projectile.normalUnit, Vec3.lengthSq, beq_iff_eq])
     (by norm_num [Projectile.sampleEvents, Projectile.sampleState])⟩
